import Mathlib

/-!
Verification of the booking admission and consistency engine of the
childcare-hotel backend (`src/backend-firestore`).  The JavaScript source is
shallowly embedded: the Firestore document store becomes an explicit `World`
value, timestamps become integers, thrown errors become `Except Err`, and each
service method becomes a Lean function that mirrors the source control flow.
-/

namespace ChildcareHotel

/-- `bookingStatus` enumerator: BOOKED, PROGRESS, COMPLETED, CANCELLED. -/
inductive BookingStatus where
  | booked
  | progress
  | completed
  | cancelled
deriving DecidableEq

/-- A photo attachment; the source compares photos by `id` only. -/
structure Photo where
  id : String
deriving DecidableEq

/-- A persisted booking document.  `employeeNotes = none` models a JS-falsy
value (`undefined`/`null`); an empty string is also falsy in the source and is
handled by `truthyNotes` below. -/
structure Booking where
  id : String
  child : String
  owner : String
  arrival : Int
  departure : Int
  status : BookingStatus
  fee : Int
  employeeNotes : Option String := none
  photos : List Photo := []
deriving DecidableEq

/-- A persisted child document with its denormalized `bookings` back-reference
list. -/
structure Child where
  id : String
  owner : String
  bookings : List String := []
deriving DecidableEq

/-- The two settings values this core consumes (`capacity`, `dailyFee`). -/
structure Settings where
  capacity : Nat
  dailyFee : Int
deriving DecidableEq

/-- The document store: the `booking` and `child` collections plus settings. -/
structure World where
  bookings : List Booking
  children : List Child
  settings : Settings
deriving DecidableEq

/-- Coarse actor roles consumed through `UserRoleChecker.isChildOwner` /
`UserRoleChecker.isEmployee`; `admin` stands for any principal for which both
predicates are false. -/
inductive Role where
  | childOwner
  | employee
  | admin
deriving DecidableEq

/-- The `currentUser` threaded through the service constructors. -/
structure Actor where
  id : String
  role : Role
deriving DecidableEq

/-- A create/update payload (`data`).  `fee` is the client-supplied fee, which
the services overwrite before writing. -/
structure BookingData where
  child : String
  owner : String
  arrival : Int
  departure : Int
  status : BookingStatus
  fee : Option Int := none
  employeeNotes : Option String := none
  photos : List Photo := []
deriving DecidableEq

/-- Error taxonomy: `ValidationError` carries its i18n message key;
`ForbiddenError` and `NotFoundError` carry none that matters here. -/
inductive Err where
  | validation (messageKey : String)
  | forbidden
  | notFound
deriving DecidableEq

/-- Equality of operation outcomes is decidable, so concrete runs of the
embedded services can be checked by evaluation. -/
instance instDecidableEqExcept {ε α : Type} [DecidableEq ε] [DecidableEq α] :
    DecidableEq (Except ε α)
  | .ok a, .ok b =>
    if h : a = b then .isTrue (by rw [h]) else .isFalse (by simp [h])
  | .error e, .error f =>
    if h : e = f then .isTrue (by rw [h]) else .isFalse (by simp [h])
  | .ok _, .error _ => .isFalse (by simp)
  | .error _, .ok _ => .isFalse (by simp)

/-- Document lookup in the `booking` collection. -/
def findBooking (w : World) (id : String) : Option Booking :=
  w.bookings.find? (fun b => b.id = id)

/-- Document lookup in the `child` collection. -/
def findChild (w : World) (id : String) : Option Child :=
  w.children.find? (fun c => c.id = id)

namespace BookingRepository

/-- `BookingRepository.existsForChild(childId)`: whether any booking document
references the child. -/
def existsForChild (w : World) (childId : String) : Bool :=
  w.bookings.any (fun b => b.child = childId)

/-- Body of `BookingRepository.countActiveBookingsInPeriod` over an explicit
list of booking documents.  It mirrors the source: Firestore pre-filters
`departure >= start`, an empty result short-circuits to 0, and the arrival,
id-exclusion and status filters are applied in that order.  (The call site in
`BookingService.isPeriodAvailable` spells the method without the `s`.) -/
def countActiveList (start periodEnd : Int) (idToExclude : Option String)
    (l : List Booking) : Nat :=
  if (l.filter (fun b => decide (b.departure ≥ start))).isEmpty then 0
  else
    ((((l.filter (fun b => decide (b.departure ≥ start))).filter
        (fun b => decide (b.arrival ≤ periodEnd))).filter
        (fun b => match idToExclude with
          | none => true
          | some x => decide (b.id ≠ x))).filter
        (fun b => decide (b.status = BookingStatus.booked ∨
          b.status = BookingStatus.progress))).length

/-- `BookingRepository.countActiveBookingsInPeriod(start, end, idToExclude)`. -/
def countActiveBookingsInPeriod (w : World) (start periodEnd : Int)
    (idToExclude : Option String) : Nat :=
  countActiveList start periodEnd idToExclude w.bookings

end BookingRepository

/-- The predicate of the specification's `countActiveOverlapping` contract:
status in BOOKED/PROGRESS, `departure >= periodStart`, `arrival <= periodEnd`,
and not the excluded id (when one is given).  Written from the spec's words,
to be compared with the repository implementation. -/
def specActivePred (start periodEnd : Int) (excludeId : Option String)
    (b : Booking) : Bool :=
  decide ((b.status = BookingStatus.booked ∨ b.status = BookingStatus.progress) ∧
    b.departure ≥ start ∧ b.arrival ≤ periodEnd ∧ excludeId ≠ some b.id)

/-- The count described by the specification's `countActiveOverlapping`. -/
def specActiveOverlapCount (w : World) (start periodEnd : Int)
    (excludeId : Option String) : Nat :=
  w.bookings.countP (specActivePred start periodEnd excludeId)

lemma countActiveList_eq_countP (start periodEnd : Int)
    (idToExclude : Option String) (l : List Booking) :
    BookingRepository.countActiveList start periodEnd idToExclude l =
      l.countP (specActivePred start periodEnd idToExclude) := by
  unfold BookingRepository.countActiveList
  cases h : (l.filter (fun b => decide (b.departure ≥ start))).isEmpty with
  | true =>
    have hfil : l.filter (fun b => decide (b.departure ≥ start)) = [] :=
      List.isEmpty_iff.mp h
    simp only [hfil, List.isEmpty_nil, if_true, List.filter_nil]
    rw [List.filter_eq_nil_iff] at hfil
    symm
    rw [List.countP_eq_length_filter, List.length_eq_zero,
      List.filter_eq_nil_iff]
    intro b hb
    have hdep := hfil b hb
    simp only [decide_eq_true_eq] at hdep
    simp [specActivePred]
    intro _ h2
    omega
  | false =>
    simp only [h, Bool.false_eq_true, if_false]
    rw [List.filter_filter, List.filter_filter, List.filter_filter,
      List.countP_eq_length_filter]
    congr 1
    refine List.filter_congr (fun b _ => ?_)
    rw [Bool.eq_iff_iff]
    cases idToExclude <;> simp [specActivePred] <;> tauto

lemma countActive_eq_spec (w : World) (start periodEnd : Int)
    (idToExclude : Option String) :
    BookingRepository.countActiveBookingsInPeriod w start periodEnd idToExclude =
      specActiveOverlapCount w start periodEnd idToExclude :=
  countActiveList_eq_countP start periodEnd idToExclude w.bookings

namespace BookingService

/-- `BookingService.isPeriodAvailable(start, end, idToExclude)`: the active
overlapping count, with the capacity read fresh from settings on each call. -/
def isPeriodAvailable (w : World) (start periodEnd : Int)
    (idToExclude : Option String) : Bool :=
  decide (BookingRepository.countActiveBookingsInPeriod
    w start periodEnd idToExclude < w.settings.capacity)

end BookingService

/-- C1: `isPeriodAvailable(start, end, excludeId)` is true exactly when the
count of bookings with status in BOOKED/PROGRESS, departure ≥ start,
arrival ≤ end, excluding the booking with id excludeId when given, is strictly
below the capacity read fresh from settings. -/
theorem isPeriodAvailable_iff_spec_count (w : World) (start periodEnd : Int)
    (excludeId : Option String) :
    BookingService.isPeriodAvailable w start periodEnd excludeId = true ↔
      specActiveOverlapCount w start periodEnd excludeId <
        w.settings.capacity := by
  simp [BookingService.isPeriodAvailable, countActive_eq_spec]

/-- Modelled from the spec: `BookingFeeCalculator.calculate` is absent from
the sources (only its call site is); per §4.3 the fee is the number of
calendar days spanned by the period times the daily fee.  Timestamps are in
whole days here, so the period `[arrival, departure]` spans
`departure - arrival + 1` calendar days. -/
def BookingFeeCalculator.calculate (arrival departure dailyFee : Int) : Int :=
  (departure - arrival + 1) * dailyFee

/-- Whether a JS value modelled by `Option String` is truthy:
`none` (undefined/null) and the empty string are falsy. -/
def truthyNotes : Option String → Bool
  | none => false
  | some s => s ≠ ""

namespace BookingService

/-- `BookingService._validatePeriodFuture(data)`: only when the target status
is BOOKED, reject `arrival` after `departure`, then reject `arrival` before
the current instant (`moment()` is `now`). -/
def validatePeriodFuture (now : Int) (data : BookingData) : Except Err Unit :=
  if data.status ≠ BookingStatus.booked then .ok ()
  else if data.arrival > data.departure then
    .error (.validation "entities.booking.validation.arrivalAfterDeparture")
  else if now > data.arrival then
    .error (.validation "entities.booking.validation.periodPast")
  else .ok ()

/-- `BookingService._validatePeriodAvailable(id, data)`: skipped unless the
proposed status is PROGRESS or BOOKED; otherwise requires
`isPeriodAvailable(arrival, departure, id)`. -/
def validatePeriodAvailable (w : World) (id : Option String)
    (data : BookingData) : Except Err Unit :=
  if ¬(data.status = BookingStatus.progress ∨
      data.status = BookingStatus.booked) then .ok ()
  else if ¬(isPeriodAvailable w data.arrival data.departure id = true) then
    .error (.validation "entities.booking.validation.periodFull")
  else .ok ()

/-- `BookingService._validateChildAndOwnerMatch(data)`: fetch the referenced
child (`ChildRepository.findById` fails NotFound when absent) and require its
owner to equal the payload owner. -/
def validateChildAndOwnerMatch (w : World) (data : BookingData) :
    Except Err Unit :=
  match findChild w data.child with
  | none => .error .notFound
  | some child =>
    if child.owner ≠ data.owner then .error .forbidden else .ok ()

/-- `BookingService.findById(id)`: repository lookup plus
`_validateFindById`, which forbids a child-owner from reading a booking owned
by someone else.  A missing booking surfaces NotFound. -/
def findById (w : World) (actor : Actor) (id : String) : Except Err Booking :=
  match findBooking w id with
  | none => .error .notFound
  | some record =>
    if actor.role = Role.childOwner ∧ record.owner ≠ actor.id then
      .error .forbidden
    else .ok record

/-- `BookingService._validateCreate(data)`: period-future check, admission
check, and for child-owner actors the own-owner and BOOKED-only checks, then
the child/owner referential check. -/
def validateCreate (w : World) (actor : Actor) (now : Int)
    (data : BookingData) : Except Err Unit :=
  match validatePeriodFuture now data with
  | .error e => .error e
  | .ok _ =>
  match validatePeriodAvailable w none data with
  | .error e => .error e
  | .ok _ =>
  match (if actor.role = Role.childOwner then
          if data.owner ≠ actor.id then Except.error Err.forbidden
          else if data.status ≠ BookingStatus.booked then
            Except.error Err.forbidden
          else Except.ok ()
         else Except.ok ()) with
  | .error e => .error e
  | .ok _ => validateChildAndOwnerMatch w data

/-- `BookingService.calculateFee(data)`: the daily fee is read fresh from
settings and combined with the payload period. -/
def calculateFee (w : World) (data : BookingData) : Int :=
  BookingFeeCalculator.calculate data.arrival data.departure
    w.settings.dailyFee

/-- The booking document written for a payload; the fee is the service-computed
one, never `data.fee`. -/
def recordFromData (id : String) (data : BookingData) (fee : Int) : Booking :=
  { id := id, child := data.child, owner := data.owner,
    arrival := data.arrival, departure := data.departure,
    status := data.status, fee := fee,
    employeeNotes := data.employeeNotes, photos := data.photos }

/-- Modelled from the spec: `refreshTwoWayRelationOneToMany` (base repository,
absent from the sources) per §4.5 idempotently adds the booking id to the
referenced child's denormalized `bookings` list and removes it from any other
child. -/
def refreshChildBookings (children : List Child) (childId bookingId : String) :
    List Child :=
  children.map (fun c =>
    if c.id = childId then
      { c with bookings :=
          if bookingId ∈ c.bookings then c.bookings
          else c.bookings ++ [bookingId] }
    else { c with bookings := c.bookings.filter (fun x => x ≠ bookingId) })

/-- `BookingService.create(data)`: validate, overwrite the fee, then commit
the insert and the relation refresh in one batch.  An error means the batch
was never committed, so no new world is produced. -/
def create (w : World) (actor : Actor) (now : Int) (newId : String)
    (data : BookingData) : Except Err (World × Booking) :=
  match validateCreate w actor now data with
  | .error e => .error e
  | .ok _ =>
    let fee := calculateFee w data
    let record := recordFromData newId data fee
    .ok ({ w with
            bookings := w.bookings ++ [record],
            children := refreshChildBookings w.children data.child newId },
         record)

/-- `BookingService._validateUpdateForChildOwner(id, data, existingData)`:
the payload owner is overwritten with the actor's id, `_validateIsSameOwner`
re-reads the record through `findById` (whose owner check rejects a record the
child-owner does not own; the re-read record equals `existingData`), the
existing status must be BOOKED and the requested status must be CANCELLED or
BOOKED.  Returns the (mutated) payload. -/
def validateUpdateForChildOwner (actor : Actor) (data : BookingData)
    (existingData : Booking) : Except Err BookingData :=
  let d := { data with owner := actor.id }
  if existingData.owner ≠ actor.id then .error .forbidden
  else if existingData.status ≠ BookingStatus.booked then .error .forbidden
  else if ¬(d.status = BookingStatus.cancelled ∨
      d.status = BookingStatus.booked) then .error .forbidden
  else .ok d

/-- `BookingService._validateUpdateForEmployee(id, data, existingData)`:
reject terminal existing statuses; when the existing status is not BOOKED,
reject setting the status back to BOOKED or changing owner or child. -/
def validateUpdateForEmployee (data : BookingData) (existingData : Booking) :
    Except Err Unit :=
  if existingData.status = BookingStatus.cancelled ∨
      existingData.status = BookingStatus.completed then .error .forbidden
  else if existingData.status ≠ BookingStatus.booked then
    if data.status = BookingStatus.booked then .error .forbidden
    else if data.owner ≠ existingData.owner then .error .forbidden
    else if data.child ≠ existingData.child then .error .forbidden
    else .ok ()
  else .ok ()

/-- `BookingService._validateUpdate(id, data)`: period checks, fresh re-read
of the existing record, role-specific transition checks (which may mutate the
payload owner), then the child/owner referential check on the effective
payload, which is returned. -/
def validateUpdate (w : World) (actor : Actor) (now : Int) (id : String)
    (data : BookingData) : Except Err BookingData :=
  match validatePeriodFuture now data with
  | .error e => .error e
  | .ok _ =>
  match validatePeriodAvailable w (some id) data with
  | .error e => .error e
  | .ok _ =>
  match findById w actor id with
  | .error e => .error e
  | .ok existingData =>
  match (if actor.role = Role.childOwner then
          validateUpdateForChildOwner actor data existingData
         else Except.ok data) with
  | .error e => .error e
  | .ok d =>
  match (if actor.role = Role.employee then
          validateUpdateForEmployee d existingData
         else Except.ok ()) with
  | .error e => .error e
  | .ok _ =>
  match validateChildAndOwnerMatch w d with
  | .error e => .error e
  | .ok _ => .ok d

/-- `BookingService._hasChangedEmployeeNotesOrPhotos(id, newRecord)`: the
pre-write record is re-read; the notes branch fires only when the payload
notes are truthy and differ from the old notes; otherwise an empty or absent
photo list yields false, and otherwise some payload photo id must be absent
from the old record's photos. -/
def hasChangedEmployeeNotesOrPhotos (oldRecord : Booking)
    (newRecord : BookingData) : Bool :=
  if truthyNotes newRecord.employeeNotes &&
      decide (oldRecord.employeeNotes ≠ newRecord.employeeNotes) then true
  else if newRecord.photos.isEmpty then false
  else newRecord.photos.any (fun photo =>
    ¬ oldRecord.photos.any (fun oldPhoto => oldPhoto.id = photo.id))

/-- `BookingService._mustSendBookingUpdateEmail(id, newRecord)`: false unless
the requested status is PROGRESS; otherwise compare the pre-write record with
the payload. -/
def mustSendBookingUpdateEmail (w : World) (actor : Actor) (id : String)
    (newRecord : BookingData) : Except Err Bool :=
  if newRecord.status ≠ BookingStatus.progress then .ok false
  else
    match findById w actor id with
    | .error e => .error e
    | .ok oldRecord => .ok (hasChangedEmployeeNotesOrPhotos oldRecord newRecord)

/-- `BookingService.update(id, data)`: validate, overwrite the fee, decide the
notification on the pre-write snapshot, commit the write batch, then report
whether the notification is fired (the returned flag; the email itself is
delegated externally after the commit).  An error means the batch was never
committed. -/
def update (w : World) (actor : Actor) (now : Int) (id : String)
    (data : BookingData) : Except Err (World × Booking × Bool) :=
  match validateUpdate w actor now id data with
  | .error e => .error e
  | .ok d =>
    let fee := calculateFee w d
    match mustSendBookingUpdateEmail w actor id { d with fee := some fee } with
    | .error e => .error e
    | .ok mustSend =>
      let record := recordFromData id d fee
      .ok ({ w with
              bookings := w.bookings.map (fun b =>
                if b.id = id then record else b),
              children := refreshChildBookings w.children d.child id },
           record, mustSend)

/-- Staging loop of `BookingService.destroyAll(ids)`: each id is handed to
`repository.destroy` with the shared batch.  Modelled from the spec:
`AbstractEntityRepository.destroy` is absent from the sources; per §6/§7 it
stages an atomic delete of the record and its back-reference and fails
NotFound for an absent id.  No service-level validation is performed on any
id (the source loop body is only the repository call). -/
def stageDestroy (w : World) : List String → Except Err Unit
  | [] => .ok ()
  | id :: rest =>
    match findBooking w id with
    | none => .error .notFound
    | some _ => stageDestroy w rest

/-- The committed effect of the destroy batch: the listed bookings are removed
and their back-references cleaned. -/
def commitDestroy (w : World) (ids : List String) : World :=
  { w with
    bookings := w.bookings.filter (fun b => decide (b.id ∉ ids)),
    children := w.children.map (fun c =>
      { c with bookings := c.bookings.filter (fun x => decide (x ∉ ids)) }) }

/-- `BookingService.destroyAll(ids)`: stage every id, then commit the batch;
any staging failure aborts before the commit, so an error produces no new
world.  The actor is passed through (as `currentUser`) but never consulted. -/
def destroyAll (w : World) (actor : Actor) (ids : List String) :
    Except Err World :=
  match stageDestroy w ids with
  | .error e => .error e
  | .ok _ => .ok (commitDestroy w ids)

end BookingService

/-- The booking list filter fields consumed by
`BookingRepository.findAndCountAll` that matter to ownership scoping. -/
structure BookingFilter where
  id : Option String := none
  owner : Option String := none
  child : Option String := none
  status : Option BookingStatus := none
deriving DecidableEq

namespace BookingService

/-- `BookingService.findAndCountAll(args)`: for a child-owner actor the filter
handed to the repository is the supplied filter with its `owner` field
overwritten by the actor's own id; other actors' filters pass through
unchanged. -/
def findAndCountAllFilter (actor : Actor) (filter : BookingFilter) :
    BookingFilter :=
  if actor.role = Role.childOwner then { filter with owner := some actor.id }
  else filter

end BookingService

namespace ChildService

/-- `ChildService._validateDestroy(id)`: a child-owner must own the child
(`_validateIsSameOwner` re-reads it through `findById`, failing NotFound when
absent and Forbidden when owned by someone else); then
`BookingRepository.existsForChild` blocks deletion while any booking
references the child. -/
def validateDestroy (w : World) (actor : Actor) (id : String) :
    Except Err Unit :=
  match (if actor.role = Role.childOwner then
          match findChild w id with
          | none => Except.error Err.notFound
          | some c =>
            if c.owner ≠ actor.id then Except.error Err.forbidden
            else Except.ok ()
         else Except.ok ()) with
  | .error e => .error e
  | .ok _ =>
    if BookingRepository.existsForChild w id then
      .error (.validation "entities.child.validation.bookingExists")
    else .ok ()

/-- Staging loop of `ChildService.destroyAll(ids)`: validate then stage each
delete (the repository destroy, absent from the sources, fails NotFound for an
absent id per §7). -/
def stageChildDestroy (w : World) (actor : Actor) :
    List String → Except Err Unit
  | [] => .ok ()
  | id :: rest =>
    match validateDestroy w actor id with
    | .error e => .error e
    | .ok _ =>
      match findChild w id with
      | none => .error .notFound
      | some _ => stageChildDestroy w actor rest

/-- The committed effect of the child destroy batch. -/
def commitChildDestroy (w : World) (ids : List String) : World :=
  { w with children := w.children.filter (fun c => decide (c.id ∉ ids)) }

/-- `ChildService.destroyAll(ids)`: per-id validation and staging, then one
batch commit; a validation failure on any id aborts before the commit, so an
error produces no new world. -/
def destroyAll (w : World) (actor : Actor) (ids : List String) :
    Except Err World :=
  match stageChildDestroy w actor ids with
  | .error e => .error e
  | .ok _ => .ok (commitChildDestroy w ids)

end ChildService

/-- Whether an operation outcome is a thrown `ValidationError` (any key). -/
def isValidationError {α : Type} : Except Err α → Bool
  | .error (.validation _) => true
  | _ => false

/-- The notification flag of an update outcome: `none` when the operation
failed (no write committed, so no email can be fired), otherwise the flag. -/
def emailFlag : Except Err (World × Booking × Bool) → Option Bool
  | .error _ => none
  | .ok (_, _, sent) => some sent

/-- C2: when the proposed status is BOOKED or PROGRESS and the period is not
available, create and update fail with ValidationError `periodFull` before any
write (the failing operation commits nothing, so no world is produced); the
`periodFull` key surfaces once the earlier period-future check passes, since
that check runs first.  For any other proposed status the admission check is
skipped entirely: `_validatePeriodAvailable` succeeds in every world, whatever
the capacity or the bookings. -/
theorem period_full_blocks_write_and_other_statuses_skip (w : World)
    (actor : Actor) (now : Int) (newId id : String) (data : BookingData) :
    (data.status = BookingStatus.booked ∨ data.status = BookingStatus.progress →
      BookingService.isPeriodAvailable w data.arrival data.departure none = false →
      BookingService.validatePeriodFuture now data = .ok () →
      BookingService.create w actor now newId data =
        .error (.validation "entities.booking.validation.periodFull")) ∧
    (data.status = BookingStatus.booked ∨ data.status = BookingStatus.progress →
      BookingService.isPeriodAvailable w data.arrival data.departure (some id) = false →
      BookingService.validatePeriodFuture now data = .ok () →
      BookingService.update w actor now id data =
        .error (.validation "entities.booking.validation.periodFull")) ∧
    (¬(data.status = BookingStatus.booked ∨ data.status = BookingStatus.progress) →
      ∀ (w' : World) (anyId : Option String),
        BookingService.validatePeriodAvailable w' anyId data = .ok ()) := by
  refine ⟨?_, ?_, ?_⟩
  · intro h1 h2 h3
    rcases h1 with h1 | h1 <;>
      simp [BookingService.create, BookingService.validateCreate,
        BookingService.validatePeriodAvailable, h1, h2, h3]
  · intro h1 h2 h3
    rcases h1 with h1 | h1 <;>
      simp [BookingService.update, BookingService.validateUpdate,
        BookingService.validatePeriodAvailable, h1, h2, h3]
  · intro h w' anyId
    have h' : ¬(data.status = BookingStatus.progress ∨
        data.status = BookingStatus.booked) := by tauto
    simp [BookingService.validatePeriodAvailable, h']

/-- C4: when the target status is BOOKED, a payload whose arrival is strictly
after its departure fails `arrivalAfterDeparture`, and a payload whose arrival
is strictly before the current instant fails with a ValidationError (the
`periodPast` key unless the arrival-after-departure check already fired); both
propagate through create and update, which therefore commit nothing.  When the
target status is not BOOKED, neither period check is applied. -/
theorem period_future_validation (w : World) (actor : Actor) (now : Int)
    (newId id : String) (data : BookingData) :
    (data.status = BookingStatus.booked → data.arrival > data.departure →
      BookingService.validatePeriodFuture now data =
        .error (.validation "entities.booking.validation.arrivalAfterDeparture") ∧
      BookingService.create w actor now newId data =
        .error (.validation "entities.booking.validation.arrivalAfterDeparture") ∧
      BookingService.update w actor now id data =
        .error (.validation "entities.booking.validation.arrivalAfterDeparture")) ∧
    (data.status = BookingStatus.booked → now > data.arrival →
      isValidationError (BookingService.validatePeriodFuture now data) = true ∧
      isValidationError (BookingService.create w actor now newId data) = true ∧
      isValidationError (BookingService.update w actor now id data) = true) ∧
    (data.status ≠ BookingStatus.booked →
      BookingService.validatePeriodFuture now data = .ok ()) := by
  refine ⟨?_, ?_, ?_⟩
  · intro h1 h2
    simp [BookingService.create, BookingService.update,
      BookingService.validateCreate, BookingService.validateUpdate,
      BookingService.validatePeriodFuture, h1, h2]
  · intro h1 h2
    by_cases harr : data.arrival > data.departure <;>
      simp [BookingService.create, BookingService.update,
        BookingService.validateCreate, BookingService.validateUpdate,
        BookingService.validatePeriodFuture, isValidationError, h1, h2, harr]
  · intro h1
    simp [BookingService.validatePeriodFuture, h1]

/-- C3: the role-gated transition table.  A child-owner's update is accepted
exactly when the actor owns the existing booking, the existing status is
BOOKED and the requested status is BOOKED or CANCELLED; an employee's update
is accepted exactly when the existing status is not CANCELLED or COMPLETED
and, unless the existing status is BOOKED, the requested status is not BOOKED
and owner and child are unchanged.  In particular the terminal statuses
COMPLETED and CANCELLED accept no outgoing transition for either role: the
attempt fails Forbidden. -/
theorem update_role_transition_table (actor : Actor) (data : BookingData)
    (ex : Booking) :
    ((BookingService.validateUpdateForChildOwner actor data ex).isOk = true ↔
      (ex.owner = actor.id ∧ ex.status = BookingStatus.booked ∧
        (data.status = BookingStatus.booked ∨
          data.status = BookingStatus.cancelled))) ∧
    (BookingService.validateUpdateForEmployee data ex = .ok () ↔
      (ex.status ≠ BookingStatus.cancelled ∧
        ex.status ≠ BookingStatus.completed ∧
        (ex.status = BookingStatus.booked ∨
          (data.status ≠ BookingStatus.booked ∧ data.owner = ex.owner ∧
            data.child = ex.child)))) ∧
    BookingService.validateUpdateForChildOwner actor data
      { ex with status := BookingStatus.completed } = .error .forbidden ∧
    BookingService.validateUpdateForChildOwner actor data
      { ex with status := BookingStatus.cancelled } = .error .forbidden ∧
    BookingService.validateUpdateForEmployee data
      { ex with status := BookingStatus.completed } = .error .forbidden ∧
    BookingService.validateUpdateForEmployee data
      { ex with status := BookingStatus.cancelled } = .error .forbidden := by
  refine ⟨?_, ?_, ?_, ?_, ?_, ?_⟩
  · unfold BookingService.validateUpdateForChildOwner
    cases hds : data.status <;> split_ifs <;>
      simp_all [Except.isOk, Except.toBool]
  · unfold BookingService.validateUpdateForEmployee
    split_ifs <;> simp_all <;> tauto
  · unfold BookingService.validateUpdateForChildOwner
    split_ifs <;> simp_all
  · unfold BookingService.validateUpdateForChildOwner
    split_ifs <;> simp_all
  · unfold BookingService.validateUpdateForEmployee
    split_ifs <;> simp_all
  · unfold BookingService.validateUpdateForEmployee
    split_ifs <;> simp_all

lemma validateUpdateForChildOwner_ok_shape (a : Actor) (data d : BookingData)
    (ex : Booking)
    (h : BookingService.validateUpdateForChildOwner a data ex = .ok d) :
    d = { data with owner := a.id } := by
  unfold BookingService.validateUpdateForChildOwner at h
  by_cases h1 : ex.owner ≠ a.id
  · simp [h1] at h
  · by_cases h2 : ex.status ≠ BookingStatus.booked
    · simp [h1, h2] at h
    · by_cases h3 : ¬(data.status = BookingStatus.cancelled ∨
          data.status = BookingStatus.booked)
      · simp [h1, h2, h3] at h
      · simp [h1, h2, h3] at h
        exact h.symm

lemma findById_ok_findBooking (w : World) (a : Actor) (id : String)
    (r : Booking) (h : BookingService.findById w a id = .ok r) :
    findBooking w id = some r := by
  unfold BookingService.findById at h
  split at h
  · simp at h
  · rename_i r0 heq
    split_ifs at h <;> simp_all

lemma findBooking_mem (w : World) (id : String) (b : Booking)
    (h : findBooking w id = some b) : b ∈ w.bookings ∧ b.id = id :=
  ⟨List.mem_of_find?_eq_some h, by simpa using List.find?_some h⟩

lemma validateUpdate_ok_inv (w : World) (a : Actor) (now : Int) (id : String)
    (data d : BookingData)
    (h : BookingService.validateUpdate w a now id data = .ok d) :
    (d = data ∨ d = { data with owner := a.id }) ∧
      ∃ ex, findBooking w id = some ex := by
  unfold BookingService.validateUpdate at h
  split at h
  · simp at h
  · split at h
    · simp at h
    · split at h
      · simp at h
      · rename_i ex heqFind
        have hex : findBooking w id = some ex :=
          findById_ok_findBooking w a id ex heqFind
        refine ⟨?_, ⟨ex, hex⟩⟩
        split at h
        · simp at h
        · rename_i d' heqRole
          have hshape : d' = data ∨ d' = { data with owner := a.id } := by
            by_cases hr : a.role = Role.childOwner
            · rw [if_pos hr] at heqRole
              exact Or.inr
                (validateUpdateForChildOwner_ok_shape a data d' ex heqRole)
            · rw [if_neg hr] at heqRole
              simp at heqRole
              exact Or.inl heqRole.symm
          split at h
          · simp at h
          · split at h
            · simp at h
            · simp at h
              exact h ▸ hshape

/-- The booking document of `b1` in `cw5`. -/
def cb5 : Booking :=
  { id := "b1", child := "c1", owner := "u1", arrival := 10, departure := 20,
    status := BookingStatus.booked, fee := 0 }

/-- The child document of `c1` in `cw5`. -/
def cc5 : Child := { id := "c1", owner := "u1", bookings := ["b1"] }

/-- A one-booking world: booking `b1` (BOOKED, owner `u1`) for child `c1`
(owner `u1`), capacity 3, daily fee 10. -/
def cw5 : World :=
  { bookings := [cb5], children := [cc5],
    settings := { capacity := 3, dailyFee := 10 } }

/-- An update payload whose owner (`u2`) differs from `c1`'s owner (`u1`). -/
def cdata5 : BookingData :=
  { child := "c1", owner := "u2", arrival := 10, departure := 20,
    status := BookingStatus.booked }

/-- C5 counterexample: the child-owner `u1` updates booking `b1` with a
payload whose owner (`u2`) does not equal the owner of the referenced child
(`u1`), yet the update succeeds rather than failing with ForbiddenError: the
service first overwrites the payload owner with the acting user's id, so the
referential check never sees the supplied value. -/
theorem payload_owner_mismatch_update_succeeds :
    (BookingService.update cw5 { id := "u1", role := Role.childOwner } 0 "b1"
      cdata5).isOk = true ∧
    cdata5.owner = "u2" ∧
    (findChild cw5 cdata5.child).map Child.owner = some "u1" ∧
    cdata5.owner ≠ "u1" := by
  decide

/-- C5 amended: once the two period validations pass, a payload owner that
differs from the referenced child's owner makes `create` fail with
ForbiddenError for every role, and makes `update` fail with ForbiddenError for
every non-child-owner role; for a child-owner's update the payload owner is
first overwritten with the actor's id, and the update fails with
ForbiddenError whenever the actor is not the referenced child's owner.  In
each case the error is thrown during validation, before any write. -/
theorem child_owner_referential_check (w : World) (actor : Actor) (now : Int)
    (newId id : String) (data : BookingData) (c : Child) (ex : Booking) :
    (findChild w data.child = some c → c.owner ≠ data.owner →
      BookingService.validatePeriodFuture now data = .ok () →
      BookingService.validatePeriodAvailable w none data = .ok () →
      BookingService.create w actor now newId data = .error .forbidden) ∧
    (actor.role ≠ Role.childOwner →
      findChild w data.child = some c → c.owner ≠ data.owner →
      BookingService.validatePeriodFuture now data = .ok () →
      BookingService.validatePeriodAvailable w (some id) data = .ok () →
      findBooking w id = some ex →
      BookingService.update w actor now id data = .error .forbidden) ∧
    (actor.role = Role.childOwner →
      findChild w data.child = some c → c.owner ≠ actor.id →
      BookingService.validatePeriodFuture now data = .ok () →
      BookingService.validatePeriodAvailable w (some id) data = .ok () →
      findBooking w id = some ex →
      BookingService.update w actor now id data = .error .forbidden) := by
  refine ⟨?_, ?_, ?_⟩
  · intro hc hne hf ha
    by_cases hr : actor.role = Role.childOwner
    · by_cases ho : data.owner = actor.id
      · by_cases hs : data.status = BookingStatus.booked
        · have hne' : c.owner ≠ actor.id := by rw [ho] at hne; exact hne
          simp [BookingService.create, BookingService.validateCreate, hf, ha,
            hr, ho, hs, BookingService.validateChildAndOwnerMatch, hc, hne,
            hne']
        · simp [BookingService.create, BookingService.validateCreate, hf, ha,
            hr, ho, hs]
      · simp [BookingService.create, BookingService.validateCreate, hf, ha,
          hr, ho]
    · simp [BookingService.create, BookingService.validateCreate, hf, ha, hr,
        BookingService.validateChildAndOwnerMatch, hc, hne]
  · intro hrole hc hne hf ha hb
    by_cases he : actor.role = Role.employee
    · by_cases ht : ex.status = BookingStatus.cancelled ∨
          ex.status = BookingStatus.completed
      · simp [BookingService.update, BookingService.validateUpdate, hf, ha,
          BookingService.findById, hb, hrole, he,
          BookingService.validateUpdateForEmployee, ht]
      · by_cases hnb : ex.status = BookingStatus.booked
        · simp [BookingService.update, BookingService.validateUpdate, hf, ha,
            BookingService.findById, hb, hrole, he,
            BookingService.validateUpdateForEmployee, ht, hnb,
            BookingService.validateChildAndOwnerMatch, hc, hne]
        · by_cases hsb : data.status = BookingStatus.booked
          · simp [BookingService.update, BookingService.validateUpdate, hf,
              ha, BookingService.findById, hb, hrole, he,
              BookingService.validateUpdateForEmployee, ht, hnb, hsb]
          · by_cases how : data.owner = ex.owner
            · by_cases hch : data.child = ex.child
              · have hc' : findChild w ex.child = some c := by
                  rw [hch] at hc; exact hc
                have hne' : c.owner ≠ ex.owner := by
                  rw [how] at hne; exact hne
                simp [BookingService.update, BookingService.validateUpdate,
                  hf, ha, BookingService.findById, hb, hrole, he,
                  BookingService.validateUpdateForEmployee, ht, hnb, hsb, how,
                  hch, BookingService.validateChildAndOwnerMatch, hc, hne,
                  hc', hne']
              · simp [BookingService.update, BookingService.validateUpdate,
                  hf, ha, BookingService.findById, hb, hrole, he,
                  BookingService.validateUpdateForEmployee, ht, hnb, hsb, how,
                  hch]
            · simp [BookingService.update, BookingService.validateUpdate, hf,
                ha, BookingService.findById, hb, hrole, he,
                BookingService.validateUpdateForEmployee, ht, hnb, hsb, how]
    · simp [BookingService.update, BookingService.validateUpdate, hf, ha,
        BookingService.findById, hb, hrole, he,
        BookingService.validateChildAndOwnerMatch, hc, hne]
  · intro hr hc hno hf ha hb
    by_cases hex : ex.owner = actor.id
    · by_cases hst : ex.status = BookingStatus.booked
      · by_cases hds : data.status = BookingStatus.cancelled ∨
            data.status = BookingStatus.booked
        · simp [BookingService.update, BookingService.validateUpdate, hf, ha,
            BookingService.findById, hb, hr, hex,
            BookingService.validateUpdateForChildOwner, hst, hds,
            BookingService.validateChildAndOwnerMatch, hc, hno]
        · simp [BookingService.update, BookingService.validateUpdate, hf, ha,
            BookingService.findById, hb, hr, hex,
            BookingService.validateUpdateForChildOwner, hst, hds]
      · simp [BookingService.update, BookingService.validateUpdate, hf, ha,
          BookingService.findById, hb, hr, hex,
          BookingService.validateUpdateForChildOwner, hst]
    · simp [BookingService.update, BookingService.validateUpdate, hf, ha,
        BookingService.findById, hb, hr, hex]

/-- A create payload whose owner (`u2`) differs from `c1`'s owner, with a
period that does not overlap `b1`. -/
def cdataA : BookingData :=
  { child := "c1", owner := "u2", arrival := 5, departure := 6,
    status := BookingStatus.booked }

/-- An update payload for an employee whose owner (`u9`) differs from `c1`'s
owner. -/
def cdata5e : BookingData :=
  { child := "c1", owner := "u9", arrival := 10, departure := 20,
    status := BookingStatus.booked }

/-- Witness for the amended C5 theorem at concrete inputs: an admin create, an
employee update and a foreign child-owner update, all failing Forbidden on the
owner mismatch. -/
theorem child_owner_referential_check_witness :
    BookingService.create cw5 { id := "a1", role := Role.admin } 0 "b9" cdataA
      = .error .forbidden ∧
    BookingService.update cw5 { id := "e1", role := Role.employee } 0 "b1"
      cdata5e = .error .forbidden ∧
    BookingService.update cw5 { id := "u3", role := Role.childOwner } 0 "b1"
      cdata5 = .error .forbidden :=
  ⟨(child_owner_referential_check cw5 { id := "a1", role := Role.admin } 0
      "b9" "b1" cdataA cc5 cb5).1 (by decide) (by decide) (by decide)
      (by decide),
   (child_owner_referential_check cw5 { id := "e1", role := Role.employee } 0
      "b9" "b1" cdata5e cc5 cb5).2.1 (by decide) (by decide) (by decide)
      (by decide) (by decide) (by decide),
   (child_owner_referential_check cw5 { id := "u3", role := Role.childOwner }
      0 "b9" "b1" cdata5 cc5 cb5).2.2 (by decide) (by decide) (by decide)
      (by decide) (by decide) (by decide)⟩

/-- C6: on every successful create and update the persisted booking carries
the fee recomputed from the payload's arrival and departure and the dailyFee
read fresh from settings — `calculateFee w data` does not depend on the
client-supplied `data.fee`, so whatever fee value the payload carries is
overwritten and never persisted. -/
theorem fee_recomputed_on_every_write (w : World) (actor : Actor) (now : Int)
    (newId id : String) (data : BookingData) (w1 w2 : World) (r1 r2 : Booking)
    (sent : Bool) :
    (BookingService.create w actor now newId data = .ok (w1, r1) →
      r1.fee = BookingService.calculateFee w data ∧ r1 ∈ w1.bookings) ∧
    (BookingService.update w actor now id data = .ok (w2, r2, sent) →
      r2.fee = BookingService.calculateFee w data ∧ r2 ∈ w2.bookings) := by
  constructor
  · intro h
    unfold BookingService.create at h
    split at h
    · simp at h
    · simp at h
      obtain ⟨hw, hr⟩ := h
      constructor
      · rw [← hr]
        rfl
      · rw [← hw, ← hr]
        simp [BookingService.recordFromData]
  · intro h
    unfold BookingService.update at h
    split at h
    · simp at h
    · rename_i d heqVal
      simp only [] at h
      split at h
      · simp at h
      · rename_i ms heqMs
        simp at h
        obtain ⟨hw, hr, hs⟩ := h
        obtain ⟨hshape, ex, hex⟩ := validateUpdate_ok_inv w actor now id data d heqVal
        obtain ⟨hmem, hid⟩ := findBooking_mem w id ex hex
        have hfee : BookingService.calculateFee w d =
            BookingService.calculateFee w data := by
          rcases hshape with h' | h' <;> subst h' <;> rfl
        constructor
        · rw [← hr]
          simp [BookingService.recordFromData, hfee]
        · rw [← hw, ← hr]
          have hm := List.mem_map_of_mem
            (fun b : Booking =>
              if b.id = id then
                BookingService.recordFromData id d
                  (BookingService.calculateFee w d)
              else b) hmem
          simpa [hid] using hm

/-- An empty-calendar world with one child `c1` (owner `u1`), capacity 2,
daily fee 10. -/
def cw6 : World :=
  { bookings := [], children := [{ id := "c1", owner := "u1" }],
    settings := { capacity := 2, dailyFee := 10 } }

/-- A create payload carrying a client-supplied fee of 999. -/
def cd6 : BookingData :=
  { child := "c1", owner := "u1", arrival := 1, departure := 3,
    status := BookingStatus.booked, fee := some 999 }

/-- The booking the create in the C6 witness persists: its fee is 30
(3 days at 10), not the supplied 999. -/
def cr6 : Booking :=
  { id := "b1", child := "c1", owner := "u1", arrival := 1, departure := 3,
    status := BookingStatus.booked, fee := 30 }

/-- The world after the create in the C6 witness. -/
def cw6r : World :=
  { bookings := [cr6],
    children := [{ id := "c1", owner := "u1", bookings := ["b1"] }],
    settings := { capacity := 2, dailyFee := 10 } }

/-- An update payload for `b1` carrying a client-supplied fee of 5. -/
def cd6u : BookingData :=
  { child := "c1", owner := "u1", arrival := 10, departure := 21,
    status := BookingStatus.booked, fee := some 5 }

/-- The booking the update in the C6 witness persists: its fee is 120
(12 days at 10), not the supplied 5. -/
def cr6u : Booking :=
  { id := "b1", child := "c1", owner := "u1", arrival := 10, departure := 21,
    status := BookingStatus.booked, fee := 120 }

/-- The world after the update in the C6 witness. -/
def cw5u : World :=
  { bookings := [cr6u], children := [cc5],
    settings := { capacity := 3, dailyFee := 10 } }

/-- Witness for C6 at concrete inputs: a create and an update, each carrying a
client fee, persist the recomputed fee instead. -/
theorem fee_recomputed_on_every_write_witness :
    (cr6.fee = BookingService.calculateFee cw6 cd6 ∧ cr6 ∈ cw6r.bookings) ∧
    (cr6u.fee = BookingService.calculateFee cw5 cd6u ∧
      cr6u ∈ cw5u.bookings) :=
  ⟨(fee_recomputed_on_every_write cw6 { id := "a1", role := Role.admin } 0
      "b1" "z" cd6 cw6r cw6r cr6 cr6 false).1 (by decide),
   (fee_recomputed_on_every_write cw5 { id := "a1", role := Role.admin } 0
      "z" "b1" cd6u cw6r cw5u cr6 cr6u false).2 (by decide)⟩

lemma hasChanged_iff (oldR : Booking) (nr : BookingData) :
    BookingService.hasChangedEmployeeNotesOrPhotos oldR nr = true ↔
      ((truthyNotes nr.employeeNotes = true ∧
          oldR.employeeNotes ≠ nr.employeeNotes) ∨
        nr.photos.any (fun p =>
          ¬ oldR.photos.any (fun q => q.id = p.id)) = true) := by
  unfold BookingService.hasChangedEmployeeNotesOrPhotos
  split_ifs with h1 h2
  · simp only [Bool.and_eq_true, decide_eq_true_eq] at h1
    simp [h1]
  · simp only [Bool.and_eq_true, decide_eq_true_eq, not_and] at h1
    rw [List.isEmpty_iff] at h2
    simp [h2]
    tauto
  · simp only [Bool.and_eq_true, decide_eq_true_eq, not_and] at h1
    constructor
    · intro hany
      exact Or.inr hany
    · intro hor
      rcases hor with ⟨ht, hne⟩ | hany
      · exact absurd hne (h1 ht)
      · exact hany

/-- The booking `b1` of the C7 worlds: PROGRESS, employee notes "a". -/
def cb7 : Booking :=
  { id := "b1", child := "c1", owner := "u1", arrival := 10, departure := 20,
    status := BookingStatus.progress, fee := 0, employeeNotes := some "a" }

/-- A world holding `cb7` and child `c1`. -/
def cw7 : World :=
  { bookings := [cb7], children := [cc5],
    settings := { capacity := 3, dailyFee := 10 } }

/-- An update payload that clears the employee notes of `b1`. -/
def cd7 : BookingData :=
  { child := "c1", owner := "u1", arrival := 10, departure := 20,
    status := BookingStatus.progress, employeeNotes := none }

/-- C7 counterexample: an employee update that clears the employee notes of a
PROGRESS booking (pre-write notes "a", payload notes absent) commits and fires
no notification, although the employeeNotes changed relative to the pre-write
record — the code fires the notes branch only when the payload notes are
truthy, so the claimed "if and only if" fails in the only-if direction. -/
theorem cleared_notes_sends_no_email :
    emailFlag (BookingService.update cw7 { id := "e1", role := Role.employee }
      0 "b1" cd7) = some false ∧
    cd7.status = BookingStatus.progress ∧
    (findBooking cw7 "b1").map Booking.employeeNotes = some (some "a") ∧
    cd7.employeeNotes ≠ some "a" := by decide

/-- C7 amended: a successful update fires the booking-update notification
exactly when the requested status is PROGRESS and (the payload's
employeeNotes are non-empty and differ from the pre-write record's, or the
payload contains a photo whose id is not among the pre-write record's
photos).  The condition is evaluated on the pre-write snapshot against the
payload, and the flag is reported only with the committed world, so the
notification fires only after the atomic write commits. -/
theorem booking_update_email_condition (w : World) (actor : Actor) (now : Int)
    (id : String) (data : BookingData) (oldRecord : Booking) :
    (BookingService.update w actor now id data).isOk = true →
    findBooking w id = some oldRecord →
    (emailFlag (BookingService.update w actor now id data) = some true ↔
      (data.status = BookingStatus.progress ∧
        ((truthyNotes data.employeeNotes = true ∧
            oldRecord.employeeNotes ≠ data.employeeNotes) ∨
          data.photos.any (fun p =>
            ¬ oldRecord.photos.any (fun q => q.id = p.id)) = true))) := by
  intro hok hold
  cases hv : BookingService.validateUpdate w actor now id data with
  | error e =>
    unfold BookingService.update at hok
    rw [hv] at hok
    simp [Except.isOk, Except.toBool] at hok
  | ok d =>
    obtain ⟨hshape, ex, hex⟩ := validateUpdate_ok_inv w actor now id data d hv
    have hst : d.status = data.status := by
      rcases hshape with h' | h' <;> subst h' <;> rfl
    have hnt : d.employeeNotes = data.employeeNotes := by
      rcases hshape with h' | h' <;> subst h' <;> rfl
    have hph : d.photos = data.photos := by
      rcases hshape with h' | h' <;> subst h' <;> rfl
    cases hm : BookingService.mustSendBookingUpdateEmail w actor id
        { d with fee := some (BookingService.calculateFee w d) } with
    | error e =>
      unfold BookingService.update at hok
      rw [hv] at hok
      simp only [] at hok
      rw [hm] at hok
      simp [Except.isOk, Except.toBool] at hok
    | ok ms =>
      have hupd : BookingService.update w actor now id data =
          .ok ({ w with
                  bookings := w.bookings.map (fun b =>
                    if b.id = id then
                      BookingService.recordFromData id d
                        (BookingService.calculateFee w d)
                    else b),
                  children :=
                    BookingService.refreshChildBookings w.children d.child id },
               BookingService.recordFromData id d
                 (BookingService.calculateFee w d), ms) := by
        unfold BookingService.update
        rw [hv]
        simp only []
        rw [hm]
      rw [hupd]
      simp only [emailFlag, Option.some.injEq]
      unfold BookingService.mustSendBookingUpdateEmail at hm
      by_cases hsp : data.status = BookingStatus.progress
      · rw [if_neg (by simp [hst, hsp])] at hm
        cases hf : BookingService.findById w actor id with
        | error e => rw [hf] at hm; simp at hm
        | ok oldR' =>
          rw [hf] at hm
          simp only [Except.ok.injEq] at hm
          have : oldR' = oldRecord := by
            have := findById_ok_findBooking w actor id oldR' hf
            rw [hold] at this
            exact (Option.some.injEq _ _ ▸ this).symm
          subst this
          rw [← hm]
          rw [hasChanged_iff]
          simp [hst, hnt, hph, hsp]
      · rw [if_pos (by simp [hst, hsp])] at hm
        simp only [Except.ok.injEq] at hm
        rw [← hm]
        simp [hsp]

/-- An update payload that rewrites the employee notes of `b1` to "b". -/
def cd7b : BookingData :=
  { child := "c1", owner := "u1", arrival := 10, departure := 20,
    status := BookingStatus.progress, employeeNotes := some "b" }

/-- Witness for the amended C7 theorem at a concrete input: an employee
rewriting the notes of a PROGRESS booking, where both sides of the
equivalence hold. -/
theorem booking_update_email_condition_witness :
    emailFlag (BookingService.update cw7 { id := "e1", role := Role.employee }
      0 "b1" cd7b) = some true ↔
      (cd7b.status = BookingStatus.progress ∧
        ((truthyNotes cd7b.employeeNotes = true ∧
            cb7.employeeNotes ≠ cd7b.employeeNotes) ∨
          cd7b.photos.any (fun p =>
            ¬ cb7.photos.any (fun q => q.id = p.id)) = true)) :=
  booking_update_email_condition cw7 { id := "e1", role := Role.employee } 0
    "b1" cd7b cb7 (by decide) (by decide)

lemma stageDestroy_missing (w : World) (id : String) :
    ∀ ids : List String, id ∈ ids → findBooking w id = none →
      BookingService.stageDestroy w ids = .error .notFound := by
  intro ids
  induction ids with
  | nil => intro h _; cases h
  | cons hd tl ih =>
    intro hmem hnone
    unfold BookingService.stageDestroy
    cases hf : findBooking w hd with
    | none => rfl
    | some b =>
      rcases List.mem_cons.mp hmem with h | h
      · subst h
        rw [hnone] at hf
        cases hf
      · exact ih h hnone

/-- The booking `b9`, owned by `u2`, of the C8 world. -/
def cb8 : Booking :=
  { id := "b9", child := "c1", owner := "u2", arrival := 10, departure := 20,
    status := BookingStatus.booked, fee := 0 }

/-- A world holding `b9` and its child `c1` (both owned by `u2`). -/
def cw8 : World :=
  { bookings := [cb8],
    children := [{ id := "c1", owner := "u2", bookings := ["b9"] }],
    settings := { capacity := 3, dailyFee := 10 } }

/-- `cw8` after booking `b9` is destroyed. -/
def cw8after : World :=
  { bookings := [], children := [{ id := "c1", owner := "u2" }],
    settings := { capacity := 3, dailyFee := 10 } }

/-- C8 counterexample: the child-owner `u1` calls the booking destroyAll on
`b9`, a booking owned by `u2`, and the batch commits and deletes it — no
ownership or guard re-validation happens on any id, so the claimed
per-id re-validation does not exist. -/
theorem destroy_all_skips_ownership_validation :
    BookingService.destroyAll cw8 { id := "u1", role := Role.childOwner }
      ["b9"] = .ok cw8after ∧
    (findBooking cw8 "b9").map Booking.owner = some "u2" ∧
    "u1" ≠ "u2" := by decide

/-- C8 amended: the booking destroyAll performs no per-id validation at all —
its outcome is independent of the acting user — but it is an atomic batch: a
failure on any id (a missing booking) aborts the whole batch before commit
with NotFound, leaving every booking undeleted (an error produces no new
world), and when every id stages successfully the batch commits as a whole. -/
theorem destroy_all_unvalidated_atomic_batch (w : World) (a a' : Actor)
    (ids : List String) (id : String) :
    BookingService.destroyAll w a ids = BookingService.destroyAll w a' ids ∧
    (id ∈ ids → findBooking w id = none →
      BookingService.destroyAll w a ids = .error .notFound) ∧
    (BookingService.stageDestroy w ids = .ok () →
      BookingService.destroyAll w a ids =
        .ok (BookingService.commitDestroy w ids)) := by
  refine ⟨rfl, ?_, ?_⟩
  · intro hmem hnone
    unfold BookingService.destroyAll
    rw [stageDestroy_missing w id ids hmem hnone]
  · intro hstage
    unfold BookingService.destroyAll
    rw [hstage]

/-- Witness for the amended C8 theorem at concrete inputs: actor-independence
on `cw8`, an aborted batch containing a missing id, and a committed batch. -/
theorem destroy_all_unvalidated_atomic_batch_witness :
    BookingService.destroyAll cw8 { id := "u1", role := Role.childOwner }
        ["b9", "zz"] =
      BookingService.destroyAll cw8 { id := "e1", role := Role.employee }
        ["b9", "zz"] ∧
    BookingService.destroyAll cw8 { id := "u1", role := Role.childOwner }
      ["b9", "zz"] = .error .notFound ∧
    BookingService.destroyAll cw8 { id := "u2", role := Role.childOwner }
      ["b9"] = .ok (BookingService.commitDestroy cw8 ["b9"]) :=
  ⟨(destroy_all_unvalidated_atomic_batch cw8
      { id := "u1", role := Role.childOwner }
      { id := "e1", role := Role.employee } ["b9", "zz"] "zz").1,
   (destroy_all_unvalidated_atomic_batch cw8
      { id := "u1", role := Role.childOwner }
      { id := "e1", role := Role.employee } ["b9", "zz"] "zz").2.1
      (by decide) (by decide),
   (destroy_all_unvalidated_atomic_batch cw8
      { id := "u2", role := Role.childOwner }
      { id := "e1", role := Role.employee } ["b9"] "b9").2.2 (by decide)⟩

/-- C9: while any booking references a child, destroying the child fails with
ValidationError `bookingExists` and commits nothing, so the child record is
left unchanged (the hypothesis only demands that a child-owner actor owns the
child, the precondition of the ownership precheck that runs first); with no
referencing booking the destroy guard passes. -/
theorem child_destroy_blocked_while_booking_exists (w : World) (actor : Actor)
    (cid : String) :
    (actor.role = Role.childOwner →
      (findChild w cid).map Child.owner = some actor.id) →
    (BookingRepository.existsForChild w cid = true →
      ChildService.destroyAll w actor [cid] =
        .error (.validation "entities.child.validation.bookingExists")) ∧
    (BookingRepository.existsForChild w cid = false →
      ChildService.validateDestroy w actor cid = .ok ()) := by
  intro hown
  have hval : ∀ hex : Bool, BookingRepository.existsForChild w cid = hex →
      ChildService.validateDestroy w actor cid =
        (if hex then
          .error (.validation "entities.child.validation.bookingExists")
        else .ok ()) := by
    intro hex hx
    unfold ChildService.validateDestroy
    by_cases hr : actor.role = Role.childOwner
    · obtain ⟨c, hc, hco⟩ : ∃ c, findChild w cid = some c ∧
          c.owner = actor.id := by
        have hm := hown hr
        cases hfc : findChild w cid with
        | none => rw [hfc] at hm; cases hm
        | some c =>
          rw [hfc] at hm
          simp at hm
          exact ⟨c, rfl, hm⟩
      cases hex <;> simp_all
    · cases hex <;> simp_all
  constructor
  · intro hex
    have h1 := hval true hex
    rw [if_pos rfl] at h1
    simp [ChildService.destroyAll, ChildService.stageChildDestroy, h1]
  · intro hex
    have h1 := hval false hex
    rw [if_neg (by simp)] at h1
    exact h1

/-- The booking `b9` referencing child `c9` in the C9 world. -/
def cb9 : Booking :=
  { id := "b9", child := "c9", owner := "u5", arrival := 10, departure := 20,
    status := BookingStatus.booked, fee := 0 }

/-- The child `c9` (owner `u5`) of the C9 world. -/
def cc9 : Child := { id := "c9", owner := "u5", bookings := ["b9"] }

/-- A world where child `c9` (owner `u5`) is referenced by booking `b9`. -/
def cw9 : World :=
  { bookings := [cb9], children := [cc9],
    settings := { capacity := 3, dailyFee := 10 } }

/-- A world where child `c9` has no referencing booking. -/
def cw9b : World :=
  { bookings := [], children := [{ id := "c9", owner := "u5" }],
    settings := { capacity := 3, dailyFee := 10 } }

/-- Witness for C9 at concrete inputs: destroying `c9` while `b9` references
it fails `bookingExists`; with no booking the guard passes. -/
theorem child_destroy_blocked_while_booking_exists_witness :
    ChildService.destroyAll cw9 { id := "u5", role := Role.childOwner }
      ["c9"] = .error (.validation "entities.child.validation.bookingExists") ∧
    ChildService.validateDestroy cw9b { id := "u5", role := Role.childOwner }
      "c9" = .ok () :=
  ⟨(child_destroy_blocked_while_booking_exists cw9
      { id := "u5", role := Role.childOwner } "c9" (by decide)).1 (by decide),
   (child_destroy_blocked_while_booking_exists cw9b
      { id := "u5", role := Role.childOwner } "c9" (by decide)).2 (by decide)⟩

/-- C10: for a child-owner actor the owner filter actually handed to the
repository equals the actor's own id, and two calls differing only in the
supplied owner filter hand the repository identical filters — a child-owner
can never scope the booking list to another owner. -/
theorem find_and_count_all_owner_scoping (aid : String) (f : BookingFilter)
    (x y : Option String) :
    (BookingService.findAndCountAllFilter
        { id := aid, role := Role.childOwner } f).owner = some aid ∧
    BookingService.findAndCountAllFilter { id := aid, role := Role.childOwner }
        { f with owner := x } =
      BookingService.findAndCountAllFilter
        { id := aid, role := Role.childOwner } { f with owner := y } := by
  constructor <;> simp [BookingService.findAndCountAllFilter]

/-- An empty world whose capacity is 0: no period is ever available. -/
def cw2 : World :=
  { bookings := [], children := [],
    settings := { capacity := 0, dailyFee := 10 } }

/-- A BOOKED payload for the C2 witness. -/
def cd2 : BookingData :=
  { child := "c1", owner := "u1", arrival := 5, departure := 6,
    status := BookingStatus.booked }

/-- A COMPLETED payload for the C2 witness. -/
def cd2c : BookingData :=
  { child := "c1", owner := "u1", arrival := 5, departure := 6,
    status := BookingStatus.completed }

/-- Witness for C2 at concrete inputs: with capacity 0 a BOOKED create and
update fail `periodFull`, while a COMPLETED payload skips the admission check
even in that world. -/
theorem period_full_blocks_write_and_other_statuses_skip_witness :
    BookingService.create cw2 { id := "a1", role := Role.admin } 0 "b1" cd2 =
      .error (.validation "entities.booking.validation.periodFull") ∧
    BookingService.update cw2 { id := "a1", role := Role.admin } 0 "b1" cd2 =
      .error (.validation "entities.booking.validation.periodFull") ∧
    BookingService.validatePeriodAvailable cw2 (some "z") cd2c = .ok () :=
  ⟨(period_full_blocks_write_and_other_statuses_skip cw2
      { id := "a1", role := Role.admin } 0 "b1" "b1" cd2).1 (Or.inl rfl)
      (by decide) (by decide),
   (period_full_blocks_write_and_other_statuses_skip cw2
      { id := "a1", role := Role.admin } 0 "b1" "b1" cd2).2.1 (Or.inl rfl)
      (by decide) (by decide),
   (period_full_blocks_write_and_other_statuses_skip cw2
      { id := "a1", role := Role.admin } 0 "b1" "b1" cd2c).2.2 (by decide)
      cw2 (some "z")⟩

/-- A BOOKED payload whose arrival is after its departure. -/
def cd4a : BookingData :=
  { child := "c1", owner := "u1", arrival := 7, departure := 3,
    status := BookingStatus.booked }

/-- A BOOKED payload whose arrival (3) lies before the `now` (5) used in the
C4 witness. -/
def cd4b : BookingData :=
  { child := "c1", owner := "u1", arrival := 3, departure := 9,
    status := BookingStatus.booked }

/-- A COMPLETED payload with a malformed period. -/
def cd4c : BookingData :=
  { child := "c1", owner := "u1", arrival := 7, departure := 3,
    status := BookingStatus.completed }

/-- Witness for C4 at concrete inputs: an inverted period and a past period
fail (and propagate through create and update), and a non-BOOKED status skips
both checks. -/
theorem period_future_validation_witness :
    (BookingService.validatePeriodFuture 0 cd4a =
        .error (.validation "entities.booking.validation.arrivalAfterDeparture") ∧
      BookingService.create cw2 { id := "a1", role := Role.admin } 0 "b1" cd4a
        = .error
          (.validation "entities.booking.validation.arrivalAfterDeparture") ∧
      BookingService.update cw2 { id := "a1", role := Role.admin } 0 "b1" cd4a
        = .error
          (.validation "entities.booking.validation.arrivalAfterDeparture")) ∧
    (isValidationError (BookingService.validatePeriodFuture 5 cd4b) = true ∧
      isValidationError (BookingService.create cw2
        { id := "a1", role := Role.admin } 5 "b1" cd4b) = true ∧
      isValidationError (BookingService.update cw2
        { id := "a1", role := Role.admin } 5 "b1" cd4b) = true) ∧
    BookingService.validatePeriodFuture 0 cd4c = .ok () :=
  ⟨(period_future_validation cw2 { id := "a1", role := Role.admin } 0 "b1"
      "b1" cd4a).1 rfl (by decide),
   (period_future_validation cw2 { id := "a1", role := Role.admin } 5 "b1"
      "b1" cd4b).2.1 rfl (by decide),
   (period_future_validation cw2 { id := "a1", role := Role.admin } 0 "b1"
      "b1" cd4c).2.2 (by decide)⟩

end ChildcareHotel
